import Mathlib

/-!
# Verification of the authorization core of `claude-code-action`

Shallow embedding of the dual-layer authorization engine:

* `src/github/api/client.ts` — `executeApiCall` (API Call Wrapper),
* `src/github/validation/actor.ts` — `checkAllowedActor` / `checkHumanActor`,
  `validateTrustedBot`, `canSkipActorCheck`, `checkActorWritePermissions`
  (the file carries three historical variants of the module; where variants
  diverge they are embedded side by side with a `V2` / `V3` suffix, `V1`
  being the variant that appears first in the file),
* `src/github/validation/permissions.ts` — `checkWritePermissions`,
  `verifyTokenAccess`, `checkTokenWritePermissions`,
  `verifyExternalTokenWriteCapability` (two variants, same convention).

Asynchronous platform calls are embedded as pure values: each endpoint the
code consults is a field of `GitHubApi` holding the (fixed, per-run) response
the platform would give, `Except ApiError α` standing for a promise that
either resolves or rejects.  A thrown JavaScript `Error` is `Except.error`
with the message string; logging side effects are dropped.  The write probe
additionally returns the list of label API calls it issued, so that theorems
can speak about cleanup being attempted.
-/

/-- Error value thrown by the platform client: an optional HTTP status
(`error.status` is absent for plain transport errors) and a message
(`error.message`). -/
structure ApiError where
  status : Option Nat
  message : String
deriving Repr, DecidableEq

/-- The TS type `ApiResult<T> = T | false`: either the operation result or
the sentinel `false`. -/
inductive ApiResult (α : Type) where
  | ok (a : α) : ApiResult α
  | sentinelFalse : ApiResult α
deriving Repr, DecidableEq

/-- Optional caller-supplied handlers for 403 / 404, as in the `handlers?`
parameter of `executeApiCall`. -/
structure Handlers (α : Type) where
  onAccessDenied : Option (ApiError → ApiResult α) := none
  onNotFound : Option (ApiError → ApiResult α) := none

/-- No handlers supplied (the TS call sites that omit the third argument). -/
def Handlers.none' {α : Type} : Handlers α := {}

/-- `executeApiCall` from `src/github/api/client.ts` (both variants in the
file have identical logic).  The operation argument is embedded as its
outcome `op : Except ApiError α`; the returned `Except String` is the
function either returning (`ok`) or throwing (`error`). -/
def executeApiCall {α : Type} (op : Except ApiError α) (operationName : String)
    (handlers : Handlers α) : Except String (ApiResult α) :=
  match op with
  | .ok v => .ok (.ok v)
  | .error e =>
    if e.status = some 403 ∨ e.status = some 404 then
      match (if e.status = some 403 then handlers.onAccessDenied else handlers.onNotFound) with
      | some h => .ok (h e)
      | none => .ok .sentinelFalse
    else if e.status = some 429 then
      .error ("Rate limited: " ++ e.message)
    else
      .error ("Failed to " ++ operationName ++ ": " ++ e.message)

/-- Modelled from the spec: `src/github/context.ts` is not in the corpus.
The platform naming convention marker for automated accounts — §4.3 of the
spec calls it "the platform's automated-account suffix marker"; the source
comments give the examples `dependabot[bot]`, `renovate[bot]`. -/
def BOT_SUFFIX : String := "[bot]"

/-- Modelled from the spec: `src/github/context.ts` is not in the corpus.
The payload sender kind reported for automated accounts; the test suite
expects the message `sender type is 'User' (expected 'Bot')`. -/
def SENDER_TYPE_BOT : String := "Bot"

/-- Modelled from the spec: `src/github/context.ts` is not in the corpus.
Spec §4.4 maps the collaborator permission string `{admin, write}` to true,
and the third variant of `checkActorWritePermissions` hardcodes exactly
these two strings. -/
def WRITE_PERMISSION_LEVELS : List String := ["admin", "write"]

/-- Credential provenance (`TokenSource` in `src/github/token.ts` and
`src/github/auth-context.ts`): the string union `"oidc" | "external"`. -/
inductive TokenSource where
  | oidc
  | external
deriving Repr, DecidableEq

/-- `TokenContext` / `AuthContext`: the opaque secret string is dropped —
no function in the authorization core inspects it, only the provenance. -/
structure TokenContext where
  source : TokenSource
deriving Repr, DecidableEq

/-- `payload.sender`, with its optionally present `type` string. -/
structure Sender where
  type : Option String
deriving Repr, DecidableEq

/-- `payload.pull_request.user`. -/
structure PRUser where
  login : String
deriving Repr, DecidableEq

/-- `payload.pull_request`, with its optionally present `user`. -/
structure PullRequestInfo where
  user : Option PRUser
deriving Repr, DecidableEq

/-- The event payload fragment the validator reads: `payload?.sender?.type`
and `payload.pull_request?.user?.login`. -/
structure Payload where
  sender : Option Sender
  pull_request : Option PullRequestInfo
deriving Repr, DecidableEq

/-- Repository coordinates. -/
structure Repository where
  owner : String
  repo : String
deriving Repr, DecidableEq

/-- The configuration inputs the authorization core reads:
`inputs.trustedBots` (possibly absent list) and `inputs.allowedBots`
(raw comma-separated string, `"*"` wildcard). -/
structure Inputs where
  trustedBots : Option (List String)
  allowedBots : String
deriving Repr, DecidableEq

/-- `ParsedGitHubContext`, restricted to the fields the authorization core
reads. -/
structure ParsedGitHubContext where
  repository : Repository
  actor : String
  eventName : String
  payload : Payload
  inputs : Inputs
deriving Repr, DecidableEq

/-- Result record of `validateTrustedBot`: `{isValid, reason?}`.  Reason
strings are abbreviated relative to the source (quoting and interpolation
of optional fields dropped); no theorem depends on their exact text. -/
structure ValidationResult where
  isValid : Bool
  reason : Option String := none
deriving Repr, DecidableEq

/-- JavaScript string truthiness for an optional string: `undefined` and
`""` are falsy. -/
def jsTruthy : Option String → Bool
  | none => false
  | some s => s ≠ ""

/-- JavaScript `s.endsWith(suffix)`.  (The built-in `String.endsWith` is
not kernel-reducible, so the JS string primitives are embedded over
character lists throughout.) -/
def jsEndsWith (s suffix : String) : Bool :=
  suffix.toList.isSuffixOf s.toList

/-- JavaScript `s.toLowerCase()`, restricted to ASCII case mapping (every
handle and configuration entry in play is ASCII). -/
def jsToLower (s : String) : String := String.mk (s.toList.map Char.toLower)

/-- Whitespace recognized by `trim` (ASCII subset of the JS definition). -/
def isJsSpace (c : Char) : Bool := c = ' ' || c = '\t' || c = '\n' || c = '\r'

/-- JavaScript `s.trim()`. -/
def jsTrim (s : String) : String :=
  String.mk (((s.toList.dropWhile isJsSpace).reverse.dropWhile isJsSpace).reverse)

/-- Character-list worker for JavaScript `s.split(",")`. -/
def splitCommaAux : List Char → List (List Char)
  | [] => [[]]
  | c :: cs =>
    let rest := splitCommaAux cs
    if c = ',' then [] :: rest
    else
      match rest with
      | [] => [[c]]
      | r :: rs => (c :: r) :: rs

/-- JavaScript `s.split(",")`. -/
def jsSplitComma (s : String) : List String :=
  (splitCommaAux s.toList).map String.mk

/-- JavaScript `s.replace(/\x5bbot\x5d$/, "")`: strip one trailing `[bot]`. -/
def stripBotSuffix (s : String) : String :=
  if jsEndsWith s "[bot]" then
    String.mk (s.toList.take (s.toList.length - 5))
  else s

/-- Substring search on character lists: does `sub` occur contiguously? -/
def containsSub (sub : List Char) : List Char → Bool
  | [] => sub.isEmpty
  | c :: cs => sub.isPrefixOf (c :: cs) || containsSub sub cs

/-- JavaScript `s.includes(sub)` (substring containment), used by the
legacy validator's `senderType?.includes(...)`. -/
def jsIncludes (s sub : String) : Bool := containsSub sub.toList s.toList

/-- The PR author the validator reads: `payload.pull_request?.user?.login`. -/
def prAuthorOf (payload : Payload) : Option String :=
  (payload.pull_request.bind (·.user)).map (·.login)

/-- `validateTrustedBot`, strict variant (`actor.ts` lines 83–133, the
variant appearing first in the file).  Ordered checks, first failure wins:
two-way spoofing check (`hasBotSuffix !== isBotSender`), the
`pull_request_target` denial, the plain-`pull_request` restriction, and the
PR-authorship check guarded by JS truthiness of the recorded author. -/
def validateTrustedBot (actor eventName : String)
    (context : ParsedGitHubContext) : ValidationResult :=
  let senderType := context.payload.sender.bind (·.type)
  let hasBotSuffix := jsEndsWith actor BOT_SUFFIX
  let isBotSender := senderType == some SENDER_TYPE_BOT
  if hasBotSuffix != isBotSender then
    { isValid := false
      reason := some (if hasBotSuffix then
        "Account " ++ actor ++ " claims to be a bot but sender type mismatches - requiring permission check"
      else
        "Non-standard bot name " ++ actor ++ " with Bot sender type - requiring permission check for safety") }
  else if eventName == "pull_request_target" then
    { isValid := false
      reason := some ("Trusted bot " ++ actor ++ " on pull_request_target event - actor check required for security") }
  else if eventName != "pull_request" then
    { isValid := false
      reason := some ("Trusted bot " ++ actor ++ " on " ++ eventName ++ " event - only pull_request events can skip actor checks") }
  else
    let prAuthor := prAuthorOf context.payload
    if jsTruthy prAuthor && prAuthor != some actor then
      { isValid := false
        reason := some ("Bot " ++ actor ++ " is trusted but did not create the PR - requiring permission check") }
    else
      { isValid := true }

/-- `validateTrustedBot`, legacy variant (`actor.ts` lines 335–378): the
spoofing check fires only when the handle ends in the bot suffix, and
compares via `senderType?.includes(SENDER_TYPE_BOT)`; the remaining three
checks match the strict variant. -/
def validateTrustedBotV2 (actor eventName : String)
    (context : ParsedGitHubContext) : ValidationResult :=
  let senderType := context.payload.sender.bind (·.type)
  if jsEndsWith actor BOT_SUFFIX &&
      !(match senderType with
        | some s => jsIncludes s SENDER_TYPE_BOT
        | none => false) then
    { isValid := false
      reason := some ("Account " ++ actor ++ " claims to be a bot but sender type does not match - requiring permission check") }
  else if eventName == "pull_request_target" then
    { isValid := false
      reason := some ("Trusted bot " ++ actor ++ " on pull_request_target event - actor check required for security") }
  else if eventName != "pull_request" then
    { isValid := false
      reason := some ("Trusted bot " ++ actor ++ " on " ++ eventName ++ " event - only pull_request events can skip actor checks") }
  else
    let prAuthor := prAuthorOf context.payload
    if jsTruthy prAuthor && prAuthor != some actor then
      { isValid := false
        reason := some ("Bot " ++ actor ++ " is trusted but did not create the PR - requiring permission check") }
    else
      { isValid := true }

/-- `canSkipActorCheck` (`actor.ts` lines 139–178): OIDC never skips; an
external-token actor must be in the allowed-bots list and pass
`validateTrustedBot`. -/
def canSkipActorCheck (tokenContext : TokenContext) (actor eventName : String)
    (allowedBots : List String) (context : ParsedGitHubContext) : Bool :=
  if tokenContext.source == TokenSource.oidc then
    false
  else if !(allowedBots.contains actor) then
    false
  else if !(validateTrustedBot actor eventName context).isValid then
    false
  else
    true

/-- `canSkipActorCheck`, legacy variant (`actor.ts` lines 384–415): same
structure, delegating to the legacy `validateTrustedBot`. -/
def canSkipActorCheckV2 (tokenContext : TokenContext) (actor eventName : String)
    (trustedBots : List String) (context : ParsedGitHubContext) : Bool :=
  if tokenContext.source == TokenSource.oidc then
    false
  else if !(trustedBots.contains actor) then
    false
  else if !(validateTrustedBotV2 actor eventName context).isValid then
    false
  else
    true

/-- `shouldCheckActorPermissions` (`actor.ts` lines 506–535, third variant):
OIDC always requires the actor check; external tokens skip it only for a
configured trusted actor on a plain `pull_request` event. -/
def shouldCheckActorPermissions (authContext : TokenContext)
    (actor eventName : String) (trustedActors : List String) : Bool :=
  if authContext.source == TokenSource.oidc then
    true
  else if trustedActors.length > 0 && trustedActors.contains actor &&
      eventName == "pull_request" then
    false
  else
    true

/-- Repository permission flags as reported by `repos.get`:
`data.permissions.push` / `data.permissions.admin`, each possibly absent. -/
structure RepoPermissions where
  push : Option Bool
  admin : Option Bool
deriving Repr, DecidableEq

/-- The `repos.get` response body, restricted to the field read by the
token check: the possibly absent `permissions` object. -/
structure RepoData where
  permissions : Option RepoPermissions
deriving Repr, DecidableEq

/-- The fixed per-run behavior of the platform API, one field per endpoint
the authorization core consults (the client is constructed once per run and
every check sees the same repository state). -/
structure GitHubApi where
  reposGet : Except ApiError RepoData
  getCollaboratorPermissionLevel : String → Except ApiError String
  createLabel : String → Except ApiError Unit
  deleteLabel : String → Except ApiError Unit
  getUserType : String → Except ApiError String

/-- `checkActorWritePermissions` (`actor.ts` lines 183–214, first variant):
collaborator permission level via the wrapper with no handlers; the
wrapper's sentinel `false` (403/404) yields verdict `false`; the permission
string is mapped through `WRITE_PERMISSION_LEVELS.includes`. -/
def checkActorWritePermissions (api : GitHubApi) (actor : String) :
    Except String Bool :=
  match executeApiCall (api.getCollaboratorPermissionLevel actor)
      ("check permissions for " ++ actor) Handlers.none' with
  | .error m => .error m
  | .ok .sentinelFalse => .ok false
  | .ok (.ok permission) => .ok (WRITE_PERMISSION_LEVELS.contains permission)

/-- `checkActorWritePermissions`, second variant (`actor.ts` lines
420–449): identical except that the wrapper's sentinel `false` is escalated
to a thrown error instead of a `false` verdict. -/
def checkActorWritePermissionsV2 (api : GitHubApi) (actor : String) :
    Except String Bool :=
  match executeApiCall (api.getCollaboratorPermissionLevel actor)
      ("check permissions for " ++ actor) Handlers.none' with
  | .error m => .error m
  | .ok .sentinelFalse => .error ("Failed to check permissions for " ++ actor)
  | .ok (.ok permission) => .ok (WRITE_PERMISSION_LEVELS.contains permission)

/-- `checkActorWritePermissions`, third variant (`actor.ts` lines 604–633):
direct try/catch with no wrapper — any API error, 403/404 included, is
rethrown wrapping the actor handle; `admin` / `write` are hardcoded. -/
def checkActorWritePermissionsV3 (api : GitHubApi) (actor : String) :
    Except String Bool :=
  match api.getCollaboratorPermissionLevel actor with
  | .ok permissionLevel =>
    .ok (permissionLevel == "admin" || permissionLevel == "write")
  | .error e =>
    .error ("Failed to check permissions for " ++ actor ++ ": " ++ e.message)

/-- `checkTokenWritePermissions` (`permissions.ts` lines 83–110, both
variants in that file agree): `repos.get` through the wrapper with 403/404
handlers returning `false`; then `push === true || admin === true` on the
possibly absent permissions object (`result.data.permissions || {}`). -/
def checkTokenWritePermissions (api : GitHubApi) : Except String Bool :=
  match executeApiCall api.reposGet "check token permissions"
      { onAccessDenied := some fun _ => .sentinelFalse
        onNotFound := some fun _ => .sentinelFalse } with
  | .error m => .error m
  | .ok .sentinelFalse => .ok false
  | .ok (.ok data) =>
    let push := data.permissions.bind (·.push)
    let admin := data.permissions.bind (·.admin)
    .ok (push == some true || admin == some true)

/-- `checkTokenWritePermissions`, third variant (`actor.ts` lines 543–595):
direct try/catch — 403/404 map to `false`, 429 and other errors are
rethrown; an absent permissions object yields `false`, else
`push === true || admin === true`. -/
def checkTokenWritePermissionsV3 (api : GitHubApi) : Except String Bool :=
  match api.reposGet with
  | .error e =>
    if e.status == some 403 || e.status == some 404 then
      .ok false
    else if e.status == some 429 then
      .error ("Rate limited while checking permissions: " ++ e.message)
    else
      .error ("Failed to check token permissions: " ++ e.message)
  | .ok data =>
    match data.permissions with
    | none => .ok false
    | some permissions =>
      .ok (permissions.push == some true || permissions.admin == some true)

/-- Modelled from the spec: `src/utils/retry.ts` is not in the corpus.
Spec §5/§9 describe a bounded retry-with-backoff combinator around a
platform call.  The embedding fixes the platform response per run, so every
retry of a failing call fails identically and a success needs no retry: on
a fixed outcome the combinator is the identity. -/
def retryWithBackoff {α : Type} (op : Except ApiError α) : Except ApiError α :=
  op

/-- One label API call issued by the write probe. -/
inductive LabelAction where
  | create (name : String)
  | delete (name : String)
deriving Repr, DecidableEq

/-- The probe's label name: `claude-action-test-` + workflow run id (or
timestamp) + `-` + random base-36 suffix. -/
def mkTestLabel (workflowId randSuffix : String) : String :=
  "claude-action-test-" ++ workflowId ++ "-" ++ randSuffix

/-- The inner async operation of the first-variant write probe
(`permissions.ts` lines 121–181): create the label (with retry), mark it
created, delete it (with retry); on failure after a successful create,
issue a best-effort cleanup delete whose own failure is only warned
(`.catch`, result discarded) before the original error is rethrown.  The
5-second real-time timeout race is outside the embedding (every embedded
call completes).  Returns the outcome plus the label calls issued. -/
def labelOperation (api : GitHubApi) (testLabel : String) :
    Except ApiError Bool × List LabelAction :=
  match retryWithBackoff (api.createLabel testLabel) with
  | .error e => (.error e, [.create testLabel])
  | .ok _ =>
    match retryWithBackoff (api.deleteLabel testLabel) with
    | .ok _ => (.ok true, [.create testLabel, .delete testLabel])
    | .error e =>
      (.error e, [.create testLabel, .delete testLabel, .delete testLabel])

/-- `verifyExternalTokenWriteCapability` (`permissions.ts` lines 112–199,
first variant): the label operation through the wrapper, with 403/404
handlers returning `false`; the randomness in the label name is made an
explicit input. -/
def verifyExternalTokenWriteCapability (api : GitHubApi)
    (workflowId randSuffix : String) : Except String Bool × List LabelAction :=
  let testLabel := mkTestLabel workflowId randSuffix
  let (inner, trace) := labelOperation api testLabel
  match executeApiCall inner "verify token write capability"
      { onAccessDenied := some fun _ => .sentinelFalse
        onNotFound := some fun _ => .sentinelFalse } with
  | .error m => (.error m, trace)
  | .ok .sentinelFalse => (.ok false, trace)
  | .ok (.ok _) => (.ok true, trace)

/-- `verifyExternalTokenWriteCapability`, second variant (`permissions.ts`
lines 301–343): create the label, then delete it with the delete error
swallowed by `.catch` (warning only), and return `true` — only the create
step's outcome reaches the wrapper's 403/404 handlers. -/
def verifyExternalTokenWriteCapabilityV2 (api : GitHubApi)
    (timeStamp randSuffix : String) : Except String Bool × List LabelAction :=
  let testLabel := mkTestLabel timeStamp randSuffix
  let (inner, trace) :=
    match api.createLabel testLabel with
    | .error e =>
      ((Except.error e : Except ApiError Bool), [LabelAction.create testLabel])
    | .ok _ =>
      (.ok true, [LabelAction.create testLabel, LabelAction.delete testLabel])
  match executeApiCall inner "verify token write capability"
      { onAccessDenied := some fun _ => .sentinelFalse
        onNotFound := some fun _ => .sentinelFalse } with
  | .error m => (.error m, trace)
  | .ok .sentinelFalse => (.ok false, trace)
  | .ok (.ok _) => (.ok true, trace)

/-- `verifyTokenAccess` (`permissions.ts` lines 58–81): dispatch on
credential provenance — OIDC reads the repository permission object,
external runs the write probe. -/
def verifyTokenAccess (api : GitHubApi) (tokenContext : TokenContext)
    (workflowId randSuffix : String) : Except String Bool :=
  if tokenContext.source == TokenSource.oidc then
    checkTokenWritePermissions api
  else
    (verifyExternalTokenWriteCapability api workflowId randSuffix).1

/-- `checkWritePermissions` (`permissions.ts` lines 16–56, both variants in
that file agree): token check first (false is terminal), then the
trusted-bot bypass decision, then the account-level check. -/
def checkWritePermissions (api : GitHubApi) (context : ParsedGitHubContext)
    (tokenContext : TokenContext) (workflowId randSuffix : String) :
    Except String Bool := do
  let tokenHasWriteAccess ← verifyTokenAccess api tokenContext workflowId randSuffix
  if !tokenHasWriteAccess then
    return false
  if canSkipActorCheck tokenContext context.actor context.eventName
      (context.inputs.trustedBots.getD []) context then
    return true
  checkActorWritePermissions api context.actor

/-- The allowed-bots list parser inside `checkAllowedActor`: split on
commas, trim, lowercase, strip one trailing `[bot]`, drop empties. -/
def parseAllowedBots (allowedBots : String) : List String :=
  ((jsSplitComma allowedBots).map
    (fun bot => stripBotSuffix (jsToLower (jsTrim bot)))).filter
    (fun bot => bot.length > 0)

/-- `checkAllowedActor` (`actor.ts` lines 22–77): resolve the actor's kind
(an API failure propagates uncaught); non-`User` kinds pass when the
`allowed_bots` input trims to `"*"`, or when the suffix-stripped lowercase
handle is in the parsed list; otherwise throw. -/
def checkAllowedActor (api : GitHubApi) (githubContext : ParsedGitHubContext) :
    Except String Unit :=
  match api.getUserType githubContext.actor with
  | .error e => .error e.message
  | .ok userType =>
    if userType != "User" then
      let allowedBots := githubContext.inputs.allowedBots
      if jsTrim allowedBots == "*" then
        .ok ()
      else
        let allowedBotsList := parseAllowedBots allowedBots
        let botName := stripBotSuffix (jsToLower githubContext.actor)
        if allowedBotsList.contains botName then
          .ok ()
        else
          .error ("Workflow initiated by non-human actor: " ++ botName ++
            " (type: " ++ userType ++ "). Add bot to allowed_bots list or use * to allow all bots.")
    else
      .ok ()

/-- `checkHumanActor` (`actor.ts` lines 226–279, second variant): byte for
byte the same decision logic as `checkAllowedActor` (only the final log
line differs). -/
def checkHumanActor (api : GitHubApi) (githubContext : ParsedGitHubContext) :
    Except String Unit :=
  checkAllowedActor api githubContext

/-! ## Shared concrete inputs for witnesses and counterexamples -/

/-- A payload whose sender is a Bot and whose PR author is `dependabot[bot]`. -/
def samplePayloadBotPR : Payload :=
  { sender := some { type := some "Bot" }
    pull_request := some { user := some { login := "dependabot[bot]" } } }

/-- A context for `dependabot[bot]` opening a `pull_request`. -/
def sampleCtx : ParsedGitHubContext :=
  { repository := { owner := "o", repo := "r" }
    actor := "dependabot[bot]"
    eventName := "pull_request"
    payload := samplePayloadBotPR
    inputs := { trustedBots := some ["dependabot[bot]"], allowedBots := "" } }

/-- A platform where every call succeeds: token has push, actor has write. -/
def apiAllOk : GitHubApi :=
  { reposGet := .ok { permissions := some { push := some true, admin := some false } }
    getCollaboratorPermissionLevel := fun _ => .ok "write"
    createLabel := fun _ => .ok ()
    deleteLabel := fun _ => .ok ()
    getUserType := fun _ => .ok "User" }

/-- A `pull_request` context where `dependabot[bot]` is the actor and PR
author but the sender type is reported as `User`. -/
def ctxUserSender : ParsedGitHubContext :=
  { repository := { owner := "o", repo := "r" }
    actor := "dependabot[bot]"
    eventName := "pull_request"
    payload := { sender := some { type := some "User" }
                 pull_request := some { user := some { login := "dependabot[bot]" } } }
    inputs := { trustedBots := some ["dependabot[bot]"], allowedBots := "" } }

/-- A `pull_request` context where the non-bot-suffixed handle `human-user`
is the actor and PR author while the sender type is reported as `Bot`. -/
def ctxBotSenderHuman : ParsedGitHubContext :=
  { repository := { owner := "o", repo := "r" }
    actor := "human-user"
    eventName := "pull_request"
    payload := { sender := some { type := some "Bot" }
                 pull_request := some { user := some { login := "human-user" } } }
    inputs := { trustedBots := some ["human-user"], allowedBots := "" } }

/-- A context where trusted `dependabot[bot]` is the actor but the PR was
opened by `other-bot[bot]`. -/
def ctxOtherAuthor : ParsedGitHubContext :=
  { repository := { owner := "o", repo := "r" }
    actor := "dependabot[bot]"
    eventName := "pull_request"
    payload := { sender := some { type := some "Bot" }
                 pull_request := some { user := some { login := "other-bot[bot]" } } }
    inputs := { trustedBots := some ["dependabot[bot]"], allowedBots := "" } }

/-- A context where trusted `dependabot[bot]` triggers a `pull_request`
whose payload carries no pull-request data at all. -/
def ctxNoPR : ParsedGitHubContext :=
  { repository := { owner := "o", repo := "r" }
    actor := "dependabot[bot]"
    eventName := "pull_request"
    payload := { sender := some { type := some "Bot" }, pull_request := none }
    inputs := { trustedBots := some ["dependabot[bot]"], allowedBots := "" } }

/-- A platform where the collaborator-permission call is denied with 403. -/
def apiCollab403 : GitHubApi :=
  { reposGet := .ok { permissions := some { push := some true, admin := some false } }
    getCollaboratorPermissionLevel :=
      fun _ => .error { status := some 403, message := "Forbidden" }
    createLabel := fun _ => .ok ()
    deleteLabel := fun _ => .ok ()
    getUserType := fun _ => .ok "User" }

/-- A platform whose `repos.get` succeeds with no permissions field. -/
def apiNoPermsField : GitHubApi :=
  { reposGet := .ok { permissions := none }
    getCollaboratorPermissionLevel := fun _ => .ok "admin"
    createLabel := fun _ => .ok ()
    deleteLabel := fun _ => .ok ()
    getUserType := fun _ => .ok "User" }

/-- A platform where the probe's delete step is denied with 403. -/
def apiDelete403 : GitHubApi :=
  { reposGet := .ok { permissions := some { push := some true, admin := some false } }
    getCollaboratorPermissionLevel := fun _ => .ok "write"
    createLabel := fun _ => .ok ()
    deleteLabel := fun _ => .error { status := some 403, message := "Forbidden" }
    getUserType := fun _ => .ok "User" }

/-- A platform whose user-kind lookup reports every handle as a `Bot`. -/
def apiBotActor : GitHubApi :=
  { reposGet := .ok { permissions := none }
    getCollaboratorPermissionLevel := fun _ => .ok "none"
    createLabel := fun _ => .ok ()
    deleteLabel := fun _ => .ok ()
    getUserType := fun _ => .ok "Bot" }

/-- A context in which `Dependabot[bot]` triggers with the configuration
entry `dependabot` (differing case, no suffix). -/
def ctxDependabotCfg : ParsedGitHubContext :=
  { repository := { owner := "o", repo := "r" }
    actor := "Dependabot[bot]"
    eventName := "issue_comment"
    payload := { sender := some { type := some "Bot" }, pull_request := none }
    inputs := { trustedBots := none, allowedBots := "dependabot" } }

/-- A context in which an arbitrary never-configured automation triggers
with the wildcard configuration (with surrounding whitespace). -/
def ctxWildcardCfg : ParsedGitHubContext :=
  { repository := { owner := "o", repo := "r" }
    actor := "some-new-bot[bot]"
    eventName := "issue_comment"
    payload := { sender := some { type := some "Bot" }, pull_request := none }
    inputs := { trustedBots := none, allowedBots := " * " } }

/-! ## Claim theorems -/

/-- Claim C5: `executeApiCall` returns the operation result on success;
on a 403 or 404 it delegates to the caller-supplied handler when present
and otherwise returns the sentinel `false` instead of throwing; on a 429 it
always throws, for any handlers; on any other error it throws wrapping the
operation name. -/
theorem executeApiCall_error_policy :
    ∀ (α : Type),
    (∀ (v : α) (n : String) (h : Handlers α),
      executeApiCall (.ok v) n h = .ok (.ok v)) ∧
    (∀ (e : ApiError) (n : String) (h : Handlers α) (hd : ApiError → ApiResult α),
      e.status = some 403 → h.onAccessDenied = some hd →
      executeApiCall (.error e) n h = .ok (hd e)) ∧
    (∀ (e : ApiError) (n : String) (h : Handlers α) (hd : ApiError → ApiResult α),
      e.status = some 404 → h.onNotFound = some hd →
      executeApiCall (.error e) n h = .ok (hd e)) ∧
    (∀ (e : ApiError) (n : String) (h : Handlers α),
      e.status = some 403 → h.onAccessDenied = none →
      executeApiCall (.error e) n h = .ok .sentinelFalse) ∧
    (∀ (e : ApiError) (n : String) (h : Handlers α),
      e.status = some 404 → h.onNotFound = none →
      executeApiCall (.error e) n h = .ok .sentinelFalse) ∧
    (∀ (e : ApiError) (n : String) (h : Handlers α),
      e.status = some 429 →
      executeApiCall (.error e) n h = .error ("Rate limited: " ++ e.message)) ∧
    (∀ (e : ApiError) (n : String) (h : Handlers α),
      e.status ≠ some 403 → e.status ≠ some 404 → e.status ≠ some 429 →
      executeApiCall (.error e) n h =
        .error ("Failed to " ++ n ++ ": " ++ e.message)) := by
  intro α
  refine ⟨fun v n h => rfl, ?_, ?_, ?_, ?_, ?_, ?_⟩
  · intro e n h hd h403 hh
    simp [executeApiCall, h403, hh]
  · intro e n h hd h404 hh
    have : e.status ≠ some 403 := by simp [h404]
    simp [executeApiCall, h404, hh, this]
  · intro e n h h403 hh
    simp [executeApiCall, h403, hh]
  · intro e n h h404 hh
    have : e.status ≠ some 403 := by simp [h404]
    simp [executeApiCall, h404, hh, this]
  · intro e n h h429
    have h403 : e.status ≠ some 403 := by simp [h429]
    have h404 : e.status ≠ some 404 := by simp [h429]
    simp [executeApiCall, h429, h403, h404]
  · intro e n h h403 h404 h429
    simp [executeApiCall, h403, h404, h429]

/-- Claim C5 witness: the policy evaluated at concrete inputs — a 403 with
a handler delegates, a 403 without a handler yields the sentinel, a 429
throws even with handlers installed, and a plain error throws wrapping the
operation name. -/
theorem executeApiCall_error_policy_witness :
    executeApiCall (α := Nat) (.ok 3) "verify token write capability" Handlers.none' =
      .ok (.ok 3) ∧
    executeApiCall (α := Nat) (.error ⟨some 403, "Forbidden"⟩) "check token permissions"
      { onAccessDenied := some fun _ => .sentinelFalse, onNotFound := none } =
      .ok .sentinelFalse ∧
    executeApiCall (α := Nat) (.error ⟨some 404, "Not Found"⟩) "check permissions for x"
      Handlers.none' = .ok .sentinelFalse ∧
    executeApiCall (α := Nat) (.error ⟨some 429, "API rate limit exceeded"⟩)
      "check token permissions"
      { onAccessDenied := some fun _ => .sentinelFalse
        onNotFound := some fun _ => .sentinelFalse } =
      .error "Rate limited: API rate limit exceeded" ∧
    executeApiCall (α := Nat) (.error ⟨none, "ECONNRESET"⟩) "check token permissions"
      Handlers.none' = .error "Failed to check token permissions: ECONNRESET" :=
  ⟨(executeApiCall_error_policy Nat).1 3 _ _,
   (executeApiCall_error_policy Nat).2.1 ⟨some 403, "Forbidden"⟩ _ _ _ rfl rfl,
   (executeApiCall_error_policy Nat).2.2.2.2.1 ⟨some 404, "Not Found"⟩ _ _ rfl rfl,
   (executeApiCall_error_policy Nat).2.2.2.2.2.1 ⟨some 429, "API rate limit exceeded"⟩ _ _ rfl,
   (executeApiCall_error_policy Nat).2.2.2.2.2.2 ⟨none, "ECONNRESET"⟩ _ _
     (by simp) (by simp) (by simp)⟩

/-- Claim C2 counterexample: the legacy `validateTrustedBot` variant
(`actor.ts` lines 335–378) accepts the handle `human-user`, which does not
end in the bot suffix, with a payload sender of kind `Bot` — the claim says
this disagreement must return invalid. -/
theorem validateTrustedBotV2_accepts_unsuffixed_bot_sender :
    (validateTrustedBotV2 "human-user" "pull_request" ctxBotSenderHuman).isValid = true := by
  decide

/-- Claim C2 (amended): the strict `validateTrustedBot` variant (`actor.ts`
lines 83–133) returns invalid whenever the handle's bot-suffix naming
disagrees with the payload sender kind, in either direction; the legacy
variant (lines 335–378) enforces only the direction where a bot-suffixed
handle has a sender that does not report `Bot`. -/
theorem spoofing_mismatch_fails_validator :
    (∀ (actor eventName : String) (ctx : ParsedGitHubContext),
      jsEndsWith actor BOT_SUFFIX ≠
        (ctx.payload.sender.bind (·.type) == some SENDER_TYPE_BOT) →
      (validateTrustedBot actor eventName ctx).isValid = false) ∧
    (∀ (actor eventName : String) (ctx : ParsedGitHubContext),
      jsEndsWith actor BOT_SUFFIX = true →
      (match ctx.payload.sender.bind (·.type) with
        | some s => jsIncludes s SENDER_TYPE_BOT
        | none => false) = false →
      (validateTrustedBotV2 actor eventName ctx).isValid = false) := by
  constructor
  · intro actor eventName ctx hne
    unfold validateTrustedBot
    simp only []
    rw [if_pos (bne_iff_ne.mpr hne)]
  · intro actor eventName ctx hsuf hmatch
    unfold validateTrustedBotV2
    simp only []
    rw [if_pos]
    rw [hsuf, hmatch]
    rfl

/-- Claim C2 witness: the strict validator rejects `dependabot[bot]` with a
`User` sender and rejects `human-user` with a `Bot` sender; the legacy
validator rejects `dependabot[bot]` with a `User` sender. -/
theorem spoofing_mismatch_fails_validator_witness :
    (validateTrustedBot "dependabot[bot]" "pull_request" ctxUserSender).isValid = false ∧
    (validateTrustedBot "human-user" "pull_request" ctxBotSenderHuman).isValid = false ∧
    (validateTrustedBotV2 "dependabot[bot]" "pull_request" ctxUserSender).isValid = false :=
  ⟨spoofing_mismatch_fails_validator.1 "dependabot[bot]" "pull_request" ctxUserSender
    (by decide),
   spoofing_mismatch_fails_validator.1 "human-user" "pull_request" ctxBotSenderHuman
    (by decide),
   spoofing_mismatch_fails_validator.2 "dependabot[bot]" "pull_request" ctxUserSender
    (by decide) (by decide)⟩

/-- Claim C3: on a `pull_request_target` event both variants of
`validateTrustedBot` return invalid, for every handle and payload —
regardless of trust configuration, sender agreement or PR authorship. -/
theorem pull_request_target_always_invalid :
    ∀ (actor : String) (ctx : ParsedGitHubContext),
      (validateTrustedBot actor "pull_request_target" ctx).isValid = false ∧
      (validateTrustedBotV2 actor "pull_request_target" ctx).isValid = false := by
  intro actor ctx
  constructor
  · unfold validateTrustedBot
    by_cases h : (jsEndsWith actor BOT_SUFFIX !=
        (ctx.payload.sender.bind (·.type) == some SENDER_TYPE_BOT)) = true
    · simp only [h, if_true]
    · simp only [h, if_false, Bool.not_eq_true] at *
      rw [if_neg (by simp [h])]
      simp
  · unfold validateTrustedBotV2
    by_cases h : (jsEndsWith actor BOT_SUFFIX &&
        !(match ctx.payload.sender.bind (·.type) with
          | some s => jsIncludes s SENDER_TYPE_BOT
          | none => false)) = true
    · simp only [h, if_true]
    · rw [if_neg (by simp [h])]
      simp

/-- Claim C1: under Federated/OIDC provenance the bypass is never granted —
`canSkipActorCheck` (both variants) returns false and
`shouldCheckActorPermissions` returns true whenever the token source is
OIDC, for every actor, event and trust configuration; consequently, in the
orchestrator `checkWritePermissions`, whenever the OIDC token check passes
the verdict is exactly the account-level verifier's verdict, so no
authorized verdict is producible from the token check alone. -/
theorem oidc_always_requires_actor_check :
    (∀ (tc : TokenContext) (actor eventName : String) (bots : List String)
        (ctx : ParsedGitHubContext), tc.source = TokenSource.oidc →
      canSkipActorCheck tc actor eventName bots ctx = false) ∧
    (∀ (tc : TokenContext) (actor eventName : String) (bots : List String)
        (ctx : ParsedGitHubContext), tc.source = TokenSource.oidc →
      canSkipActorCheckV2 tc actor eventName bots ctx = false) ∧
    (∀ (ac : TokenContext) (actor eventName : String) (ta : List String),
      ac.source = TokenSource.oidc →
      shouldCheckActorPermissions ac actor eventName ta = true) ∧
    (∀ (api : GitHubApi) (ctx : ParsedGitHubContext) (w r : String),
      verifyTokenAccess api { source := TokenSource.oidc } w r = Except.ok true →
      checkWritePermissions api ctx { source := TokenSource.oidc } w r =
        checkActorWritePermissions api ctx.actor) := by
  refine ⟨?_, ?_, ?_, ?_⟩
  · intro tc actor eventName bots ctx h
    simp [canSkipActorCheck, h]
  · intro tc actor eventName bots ctx h
    simp [canSkipActorCheckV2, h]
  · intro ac actor eventName ta h
    simp [shouldCheckActorPermissions, h]
  · intro api ctx w r h
    simp [checkWritePermissions, h, canSkipActorCheck, Bind.bind, Except.bind,
      Pure.pure, Except.pure]

/-- Claim C1 witness: at a concrete trusted-bot context satisfying every
bypass precondition except provenance, the OIDC bypass is still refused and
the orchestrator's verdict equals the account-level verifier's. -/
theorem oidc_always_requires_actor_check_witness :
    canSkipActorCheck { source := TokenSource.oidc } "dependabot[bot]" "pull_request"
      ["dependabot[bot]"] sampleCtx = false ∧
    shouldCheckActorPermissions { source := TokenSource.oidc } "dependabot[bot]"
      "pull_request" ["dependabot[bot]"] = true ∧
    checkWritePermissions apiAllOk sampleCtx { source := TokenSource.oidc } "1" "ab" =
      checkActorWritePermissions apiAllOk sampleCtx.actor :=
  ⟨oidc_always_requires_actor_check.1 _ "dependabot[bot]" "pull_request"
      ["dependabot[bot]"] sampleCtx rfl,
   oidc_always_requires_actor_check.2.2.1 _ "dependabot[bot]" "pull_request"
      ["dependabot[bot]"] rfl,
   oidc_always_requires_actor_check.2.2.2 apiAllOk sampleCtx "1" "ab" (by rfl)⟩

/-- Helper: on a plain `pull_request`, a truthy recorded PR author that
differs from the handle makes the strict validator invalid (step 4). -/
theorem validateTrustedBot_author_mismatch (actor : String)
    (ctx : ParsedGitHubContext) (author : String)
    (hpr : prAuthorOf ctx.payload = some author) (hne : author ≠ "")
    (hneq : author ≠ actor) :
    (validateTrustedBot actor "pull_request" ctx).isValid = false := by
  simp only [validateTrustedBot, hpr]
  split
  · rfl
  · split
    · rfl
    · split
      · rfl
      · split
        · rfl
        · next hauth =>
            exfalso
            apply hauth
            simp [jsTruthy, hne, hneq]

/-- Helper: on a plain `pull_request` with no truthy recorded PR author and
an agreeing spoofing check, the strict validator is valid (vacuous step 4). -/
theorem validateTrustedBot_no_author_valid (actor : String)
    (ctx : ParsedGitHubContext)
    (hpr : prAuthorOf ctx.payload = none)
    (hsp : jsEndsWith actor BOT_SUFFIX =
      (ctx.payload.sender.bind (·.type) == some SENDER_TYPE_BOT)) :
    (validateTrustedBot actor "pull_request" ctx).isValid = true := by
  simp only [validateTrustedBot, hpr]
  rw [if_neg (by simp [hsp])]
  rw [if_neg (by decide)]
  rw [if_neg (by decide)]
  rw [if_neg (by simp [jsTruthy])]

/-- Claim C4: under an external credential with the actor in the trusted
list and a plain `pull_request` event, a recorded PR author different from
the handle denies the bypass, while an absent recorded author passes the
authorship step vacuously and (with the spoofing check agreeing) the bypass
is granted. -/
theorem external_trusted_author_gate :
    ∀ (tc : TokenContext) (ctx : ParsedGitHubContext) (bots : List String),
      tc.source = TokenSource.external →
      bots.contains ctx.actor = true →
      ctx.eventName = "pull_request" →
      (∀ author : String, prAuthorOf ctx.payload = some author → author ≠ "" →
        author ≠ ctx.actor →
        canSkipActorCheck tc ctx.actor ctx.eventName bots ctx = false) ∧
      (prAuthorOf ctx.payload = none →
        jsEndsWith ctx.actor BOT_SUFFIX =
          (ctx.payload.sender.bind (·.type) == some SENDER_TYPE_BOT) →
        canSkipActorCheck tc ctx.actor ctx.eventName bots ctx = true) := by
  intro tc ctx bots hsrc hcont hev
  have hoidc : (tc.source == TokenSource.oidc) = false := by rw [hsrc]; rfl
  constructor
  · intro author hpr hne hneq
    have hval := validateTrustedBot_author_mismatch ctx.actor ctx author hpr hne hneq
    rw [hev]
    simp [canSkipActorCheck, hoidc, hcont, hval]
  · intro hpr hsp
    have hval := validateTrustedBot_no_author_valid ctx.actor ctx hpr hsp
    have hmem : ctx.actor ∈ bots := by simpa using hcont
    rw [hev]
    simp [canSkipActorCheck, hoidc, hcont, hval, hmem]

/-- Claim C4 witness: the bypass is refused when `other-bot[bot]` opened
the PR and granted when the payload records no pull-request author. -/
theorem external_trusted_author_gate_witness :
    canSkipActorCheck { source := TokenSource.external } "dependabot[bot]"
      "pull_request" ["dependabot[bot]"] ctxOtherAuthor = false ∧
    canSkipActorCheck { source := TokenSource.external } "dependabot[bot]"
      "pull_request" ["dependabot[bot]"] ctxNoPR = true :=
  ⟨(external_trusted_author_gate { source := TokenSource.external } ctxOtherAuthor
      ["dependabot[bot]"] rfl (by decide) rfl).1 "other-bot[bot]" rfl (by decide)
      (by decide),
   (external_trusted_author_gate { source := TokenSource.external } ctxNoPR
      ["dependabot[bot]"] rfl (by decide) rfl).2 rfl (by decide)⟩

/-- Helper: membership in `WRITE_PERMISSION_LEVELS` is exactly the
`admin` / `write` comparison. -/
theorem write_permission_levels_spec (perm : String) :
    WRITE_PERMISSION_LEVELS.contains perm = (perm == "admin" || perm == "write") := by
  cases h1 : perm == "admin" <;> cases h2 : perm == "write" <;>
    simp [WRITE_PERMISSION_LEVELS, List.contains, List.elem, h1, h2]

/-- Claim C6 counterexample: when the collaborator-permission call fails
with access-denied (403), the second variant of
`checkActorWritePermissions` (`actor.ts` lines 420–449) and the third
(lines 604–633) throw an error — the claim says the verifier returns false
rather than raising. -/
theorem checkActorWritePermissionsV2_V3_throw_on_403 :
    checkActorWritePermissionsV2 apiCollab403 "some-actor" =
      .error "Failed to check permissions for some-actor" ∧
    checkActorWritePermissionsV3 apiCollab403 "some-actor" =
      .error "Failed to check permissions for some-actor: Forbidden" :=
  ⟨rfl, rfl⟩

/-- Claim C6 (amended): the first variant of `checkActorWritePermissions`
(`actor.ts` lines 183–214) returns true exactly when the reported
permission is `admin` or `write`, false for every other permission string,
and maps an access-denied or not-found failure of the wrapped call to a
false verdict; the second and third variants share the permission-string
mapping but escalate such a wrapper failure to a thrown error. -/
theorem actor_write_permission_mapping :
    (∀ (api : GitHubApi) (actor perm : String),
      api.getCollaboratorPermissionLevel actor = .ok perm →
      checkActorWritePermissions api actor =
        .ok (perm == "admin" || perm == "write") ∧
      checkActorWritePermissionsV2 api actor =
        .ok (perm == "admin" || perm == "write") ∧
      checkActorWritePermissionsV3 api actor =
        .ok (perm == "admin" || perm == "write")) ∧
    (∀ (api : GitHubApi) (actor : String) (e : ApiError),
      api.getCollaboratorPermissionLevel actor = .error e →
      e.status = some 403 ∨ e.status = some 404 →
      checkActorWritePermissions api actor = .ok false ∧
      checkActorWritePermissionsV2 api actor =
        .error ("Failed to check permissions for " ++ actor) ∧
      checkActorWritePermissionsV3 api actor =
        .error ("Failed to check permissions for " ++ actor ++ ": " ++ e.message)) := by
  constructor
  · intro api actor perm hok
    refine ⟨?_, ?_, ?_⟩
    · simp only [checkActorWritePermissions, executeApiCall, hok]
      exact congrArg Except.ok (write_permission_levels_spec perm)
    · simp only [checkActorWritePermissionsV2, executeApiCall, hok]
      exact congrArg Except.ok (write_permission_levels_spec perm)
    · simp only [checkActorWritePermissionsV3, hok]
  · intro api actor e herr hst
    have hcall : executeApiCall (api.getCollaboratorPermissionLevel actor)
        ("check permissions for " ++ actor) Handlers.none' = .ok .sentinelFalse := by
      rcases hst with h | h
      · simp [executeApiCall, herr, h, Handlers.none']
      · have h403 : e.status ≠ some 403 := by simp [h]
        simp [executeApiCall, herr, h, h403, Handlers.none']
    refine ⟨?_, ?_, ?_⟩
    · simp [checkActorWritePermissions, hcall]
    · simp [checkActorWritePermissionsV2, hcall]
    · simp [checkActorWritePermissionsV3, herr]

/-- Claim C6 witness: `write` maps to true under the first variant, and a
403 maps to a false verdict there while the second variant throws. -/
theorem actor_write_permission_mapping_witness :
    checkActorWritePermissions apiAllOk "alice" = .ok true ∧
    checkActorWritePermissions apiCollab403 "alice" = .ok false := by
  constructor
  · have h := ((actor_write_permission_mapping.1 apiAllOk "alice" "write") rfl).1
    rw [h]
    rfl
  · exact (actor_write_permission_mapping.2 apiCollab403 "alice"
      ⟨some 403, "Forbidden"⟩ rfl (Or.inl rfl)).1

/-- Claim C7: when `repos.get` succeeds, the OIDC token check returns true
iff the reported permissions object is present with `push` or `admin` set
to true; an absent permissions field yields false without an exception;
and the `actor.ts` variant of the check agrees with the `permissions.ts`
one on every successful response. -/
theorem token_write_permission_flags :
    ∀ (api : GitHubApi) (d : RepoData), api.reposGet = .ok d →
      (checkTokenWritePermissions api = .ok true ↔
        (∃ p, d.permissions = some p ∧ (p.push = some true ∨ p.admin = some true))) ∧
      (d.permissions = none → checkTokenWritePermissions api = .ok false) ∧
      checkTokenWritePermissionsV3 api = checkTokenWritePermissions api := by
  intro api d h
  have hv1 : checkTokenWritePermissions api =
      .ok ((d.permissions.bind (·.push) == some true) ||
           (d.permissions.bind (·.admin) == some true)) := by
    simp [checkTokenWritePermissions, executeApiCall, h]
  have hv3 : checkTokenWritePermissionsV3 api =
      .ok ((d.permissions.bind (·.push) == some true) ||
           (d.permissions.bind (·.admin) == some true)) := by
    cases hp : d.permissions with
    | none => simp [checkTokenWritePermissionsV3, h, hp]
    | some p => simp [checkTokenWritePermissionsV3, h, hp]
  refine ⟨?_, ?_, by rw [hv1, hv3]⟩
  · rw [hv1]
    cases hp : d.permissions with
    | none => simp [hp]
    | some p => simp [hp]
  · intro hnone
    rw [hv1, hnone]
    rfl

/-- Claim C7 witness: `push: true` yields true, and an absent permissions
field yields false under both embedded variants of the check. -/
theorem token_write_permission_flags_witness :
    checkTokenWritePermissions apiAllOk = .ok true ∧
    checkTokenWritePermissions apiNoPermsField = .ok false ∧
    checkTokenWritePermissionsV3 apiNoPermsField = .ok false := by
  refine ⟨?_, ?_, ?_⟩
  · exact (token_write_permission_flags apiAllOk _ rfl).1.mpr ⟨_, rfl, Or.inl rfl⟩
  · exact (token_write_permission_flags apiNoPermsField _ rfl).2.1 rfl
  · rw [(token_write_permission_flags apiNoPermsField _ rfl).2.2]
    exact (token_write_permission_flags apiNoPermsField _ rfl).2.1 rfl

/-- Claim C8 counterexample: with the delete step denied (403), the legacy
probe (`permissions.ts` lines 301–343) still returns a true verdict — the
delete failure is swallowed by the cleanup `.catch` — whereas the claim
requires a false verdict on an access-denied outcome of either step. -/
theorem write_probe_V2_true_despite_delete_403 :
    (verifyExternalTokenWriteCapabilityV2 apiDelete403 "17" "abc").1 = .ok true :=
  rfl

/-- Claim C8 (amended): the first-variant probe (`permissions.ts` lines
112–199) creates its uniquely-named label and then deletes it; an
access-denied or not-found outcome on either the create or the delete step
yields a false verdict; after a successful create a delete is always
attempted (twice when the first delete fails: the cleanup attempt is
issued and its failure is never escalated — the verdict stays false on a
403/404 delete).  In the legacy probe (lines 301–343) only the create
step's outcome can yield a false verdict; a delete failure is treated as a
cleanup warning and the verdict remains true. -/
theorem write_probe_creates_deletes_and_fails_closed :
    ∀ (api : GitHubApi) (w r : String),
      (api.createLabel (mkTestLabel w r) = .ok () →
        api.deleteLabel (mkTestLabel w r) = .ok () →
        verifyExternalTokenWriteCapability api w r =
          (.ok true, [.create (mkTestLabel w r), .delete (mkTestLabel w r)])) ∧
      (∀ e : ApiError, e.status = some 403 ∨ e.status = some 404 →
        api.createLabel (mkTestLabel w r) = .error e →
        verifyExternalTokenWriteCapability api w r =
          (.ok false, [.create (mkTestLabel w r)])) ∧
      (∀ e : ApiError, e.status = some 403 ∨ e.status = some 404 →
        api.createLabel (mkTestLabel w r) = .ok () →
        api.deleteLabel (mkTestLabel w r) = .error e →
        verifyExternalTokenWriteCapability api w r =
          (.ok false, [.create (mkTestLabel w r), .delete (mkTestLabel w r),
            .delete (mkTestLabel w r)])) ∧
      (api.createLabel (mkTestLabel w r) = .ok () →
        LabelAction.delete (mkTestLabel w r) ∈
          (verifyExternalTokenWriteCapability api w r).2) := by
  intro api w r
  refine ⟨?_, ?_, ?_, ?_⟩
  · intro hcreate hdelete
    simp [verifyExternalTokenWriteCapability, labelOperation, retryWithBackoff,
      executeApiCall, hcreate, hdelete]
  · intro e hst hcreate
    rcases hst with h | h
    · simp [verifyExternalTokenWriteCapability, labelOperation, retryWithBackoff,
        executeApiCall, hcreate, h]
    · have h403 : e.status ≠ some 403 := by simp [h]
      simp [verifyExternalTokenWriteCapability, labelOperation, retryWithBackoff,
        executeApiCall, hcreate, h, h403]
  · intro e hst hcreate hdelete
    rcases hst with h | h
    · simp [verifyExternalTokenWriteCapability, labelOperation, retryWithBackoff,
        executeApiCall, hcreate, hdelete, h]
    · have h403 : e.status ≠ some 403 := by simp [h]
      simp [verifyExternalTokenWriteCapability, labelOperation, retryWithBackoff,
        executeApiCall, hcreate, hdelete, h, h403]
  · intro hcreate
    cases hdelete : api.deleteLabel (mkTestLabel w r) with
    | ok u =>
      simp [verifyExternalTokenWriteCapability, labelOperation, retryWithBackoff,
        executeApiCall, hcreate, hdelete]
    | error e =>
      simp only [verifyExternalTokenWriteCapability, labelOperation,
        retryWithBackoff, hcreate, hdelete]
      split <;> simp

/-- Claim C8 witness: on an all-succeeding platform the probe issues
exactly create-then-delete of its unique label and reports true; when the
delete is denied with 403 the cleanup delete is still issued and the
verdict is false. -/
theorem write_probe_creates_deletes_and_fails_closed_witness :
    verifyExternalTokenWriteCapability apiAllOk "17" "abc" =
      (.ok true, [.create (mkTestLabel "17" "abc"), .delete (mkTestLabel "17" "abc")]) ∧
    verifyExternalTokenWriteCapability apiDelete403 "17" "abc" =
      (.ok false, [.create (mkTestLabel "17" "abc"), .delete (mkTestLabel "17" "abc"),
        .delete (mkTestLabel "17" "abc")]) :=
  ⟨(write_probe_creates_deletes_and_fails_closed apiAllOk "17" "abc").1 rfl rfl,
   (write_probe_creates_deletes_and_fails_closed apiDelete403 "17" "abc").2.2.1
      ⟨some 403, "Forbidden"⟩ (Or.inl rfl) rfl rfl⟩

/-- Claim C9: with the platform responses fixed (label endpoints give the
same answer whatever the label name — the repository state is unchanged
between the two runs), `verifyTokenAccess` returns the same verdict on two
calls even though the probe path generates a different random label name
each run; the OIDC path has no randomness at all. -/
theorem token_check_label_name_independent :
    ∀ (api : GitHubApi) (tc : TokenContext),
      (∀ n m : String, api.createLabel n = api.createLabel m) →
      (∀ n m : String, api.deleteLabel n = api.deleteLabel m) →
      ∀ (w1 r1 w2 r2 : String),
        verifyTokenAccess api tc w1 r1 = verifyTokenAccess api tc w2 r2 := by
  intro api tc hc hd w1 r1 w2 r2
  cases hsrc : tc.source with
  | oidc => simp [verifyTokenAccess, hsrc]
  | external =>
    have hoidc : (tc.source == TokenSource.oidc) = false := by rw [hsrc]; rfl
    simp only [verifyTokenAccess, hoidc, Bool.false_eq_true, if_false]
    have hcl := hc (mkTestLabel w1 r1) (mkTestLabel w2 r2)
    have hdl := hd (mkTestLabel w1 r1) (mkTestLabel w2 r2)
    simp only [verifyExternalTokenWriteCapability, labelOperation,
      retryWithBackoff, hcl, hdl]
    cases hc2 : api.createLabel (mkTestLabel w2 r2) with
    | error e =>
      cases hE : executeApiCall (Except.error e : Except ApiError Bool)
          "verify token write capability"
          { onAccessDenied := some fun _ => .sentinelFalse
            onNotFound := some fun _ => .sentinelFalse } with
      | error m => simp [hE]
      | ok a => cases a <;> simp [hE]
    | ok u =>
      cases hd2 : api.deleteLabel (mkTestLabel w2 r2) with
      | ok v => simp [executeApiCall]
      | error e =>
        cases hE : executeApiCall (Except.error e : Except ApiError Bool)
            "verify token write capability"
            { onAccessDenied := some fun _ => .sentinelFalse
              onNotFound := some fun _ => .sentinelFalse } with
        | error m => simp [hE]
        | ok a => cases a <;> simp [hE]

/-- Claim C9 witness: on a platform whose label endpoints ignore the label
name, two runs with different workflow ids and random suffixes agree. -/
theorem token_check_label_name_independent_witness :
    verifyTokenAccess apiAllOk { source := TokenSource.external } "17" "abc" =
      verifyTokenAccess apiAllOk { source := TokenSource.external } "18" "xyz" :=
  token_check_label_name_independent apiAllOk { source := TokenSource.external }
    (fun _ _ => rfl) (fun _ _ => rfl) "17" "abc" "18" "xyz"

/-- Claim C10: for a non-`User` actor kind, a wildcard `allowed_bots` input
(after trimming) makes `checkAllowedActor` succeed without consulting the
per-bot list; otherwise success is exactly membership of the
suffix-stripped lowercase handle in the parsed (trimmed, lowercased,
suffix-stripped, non-empty) configuration list; `checkHumanActor` is the
same decision procedure; and concretely the entry `dependabot` admits the
actor `Dependabot[bot]`. -/
theorem allowed_actor_wildcard_and_matching :
    (∀ (api : GitHubApi) (ctx : ParsedGitHubContext) (t : String),
      api.getUserType ctx.actor = .ok t → t ≠ "User" →
      jsTrim ctx.inputs.allowedBots = "*" →
      checkAllowedActor api ctx = .ok ()) ∧
    (∀ (api : GitHubApi) (ctx : ParsedGitHubContext) (t : String),
      api.getUserType ctx.actor = .ok t → t ≠ "User" →
      jsTrim ctx.inputs.allowedBots ≠ "*" →
      (checkAllowedActor api ctx = .ok () ↔
        (parseAllowedBots ctx.inputs.allowedBots).contains
          (stripBotSuffix (jsToLower ctx.actor)) = true)) ∧
    (∀ (api : GitHubApi) (ctx : ParsedGitHubContext),
      checkHumanActor api ctx = checkAllowedActor api ctx) ∧
    checkAllowedActor apiBotActor ctxDependabotCfg = .ok () := by
  refine ⟨?_, ?_, fun api ctx => rfl, rfl⟩
  · intro api ctx t hok ht hw
    simp only [checkAllowedActor, hok]
    rw [if_pos (bne_iff_ne.mpr ht), if_pos (by rw [hw]; rfl)]
  · intro api ctx t hok ht hw
    simp only [checkAllowedActor, hok]
    rw [if_pos (bne_iff_ne.mpr ht), if_neg (by simp [hw])]
    by_cases hcont : (parseAllowedBots ctx.inputs.allowedBots).contains
        (stripBotSuffix (jsToLower ctx.actor)) = true
    · simp [hcont]
    · simp [hcont]

/-- Claim C10 witness: the wildcard admits a never-configured automation,
and with a non-wildcard configuration the `dependabot` entry admits
`Dependabot[bot]` through the normalized-membership equivalence. -/
theorem allowed_actor_wildcard_and_matching_witness :
    checkAllowedActor apiBotActor ctxWildcardCfg = .ok () ∧
    (checkAllowedActor apiBotActor ctxDependabotCfg = .ok () ↔
      (parseAllowedBots "dependabot").contains
        (stripBotSuffix (jsToLower "Dependabot[bot]")) = true) :=
  ⟨allowed_actor_wildcard_and_matching.1 apiBotActor ctxWildcardCfg "Bot" rfl
      (by decide) (by decide),
   allowed_actor_wildcard_and_matching.2.1 apiBotActor ctxDependabotCfg "Bot" rfl
      (by decide) (by decide)⟩
